import Mathlib

/-!
Shallow embedding of the unified multi-scope OAuth2 session authentication
subsystem (`GoogleUnifiedAuth` in `src/google_services/auth/google_auth.py`,
and the callback route in `src/google_services/auth/oauth_routes.py`).

Modelling choices:
* The in-memory session map `self.sessions` is a function
  `String → Option Session`; file persistence (`_save_sessions`,
  `reload_sessions`) is the identity in a single-process model, so
  `get_session` is a plain lookup.
* Python `Union[str, List[str]]` scope arguments are `ScopesArg`
  (`str` or `list`), with Python truthiness (`""` and `[]` are falsy)
  and the `isinstance(_, str)` normalisation modelled explicitly.
  Iterating a Python `str` yields its characters, which matters for
  `set.update` on a string argument.
* Python `set` values are represented by lists; `a.union(b)` followed by
  `list(...)` is modelled by the deterministic representative
  `pyUnion a b = a ++ (b minus a)`, which has the same set of elements.
* Network effects are parameters: the code exchange in
  `handle_oauth_callback` is an `Except PyExn Exchanged` argument, and
  credential expiry / token refresh in `get_credentials` is a
  `ResolveEnv` argument. A raised exception is the `.error` branch of
  the returned `Except`.
* Timestamps (`datetime.utcnow().isoformat()`) are `Nat` clock values
  passed in by the caller.
-/

/-- A Python exception as observed by the `except Exception as e` handler:
its type name and its message. -/
structure PyExn where
  ty : String
  msg : String
deriving Repr, DecidableEq

/-- The `last_error` record written on a failed callback. -/
structure ErrInfo where
  error_time : Nat
  error_type : String
  error_message : String
deriving Repr, DecidableEq

/-- One entry of the `scopes_history` audit log. -/
structure HistEntry where
  date : Nat
  action : String
  scopes : List String
deriving Repr, DecidableEq

/-- The `token_data` dict stored in a session. `refresh_token` and
`last_updated` keys may be absent (`none`). -/
structure TokenRecord where
  token : String
  client_id : Option String
  client_secret : Option String
  scopes : List String
  refresh_token : Option String
  last_updated : Option Nat
deriving Repr, DecidableEq

/-- One session record of the sessions map. Keys that `create_session`
does not write (`scopes_history`, `last_error`, `last_authorized`) are
modelled as present with an empty/none default. -/
structure Session where
  created_at : Nat
  status : String
  redirect_uri : String
  scopes : List String
  token_data : Option TokenRecord
  scopes_history : List HistEntry
  last_error : Option ErrInfo
  last_authorized : Option Nat
deriving Repr, DecidableEq

/-- The `self.sessions` map. -/
def AuthState : Type := String → Option Session

/-- The deployment's fixed redirect URI (`settings.GOOGLE_REDIRECT_URI`). -/
def REDIRECT_URI : String := "redirect-uri"

/-- A `Union[str, List[str]]` scope argument. -/
inductive ScopesArg where
  | str (s : String)
  | list (l : List String)
deriving Repr, DecidableEq

/-- Python truthiness of a `str`/`list` value: `""` and `[]` are falsy. -/
def pyTruthyArg : ScopesArg → Bool
  | .str s => decide (s ≠ "")
  | .list l => decide (l ≠ [])

/-- Python truthiness of an optional string (`None` and `""` are falsy). -/
def optTruthy : Option String → Bool
  | some s => decide (s ≠ "")
  | none => false

/-- Python truthiness of an optional scope argument. -/
def newScopesTruthy : Option ScopesArg → Bool
  | some v => pyTruthyArg v
  | none => false

/-- `if isinstance(scope, str): scope = [scope]`. -/
def normScopes : ScopesArg → List String
  | .str s => [s]
  | .list l => l

/-- Iterating a Python value: a `str` yields its characters (as
one-character strings), a `list` yields its elements. This is what
`set.update(x)` consumes. -/
def iterStrs : ScopesArg → List String
  | .str s => s.data.map (fun c => String.mk [c])
  | .list l => l

/-- `list(set(a).union(set(b)))`, as the deterministic representative
`a ++ (elements of b not in a)`; it has the same members as the union. -/
def pyUnion (a b : List String) : List String :=
  a ++ b.filter (fun x => decide (x ∉ a))

/-- `requested.issubset(current)` as a boolean. -/
def isSubsetB (a b : List String) : Bool :=
  a.all (fun x => decide (x ∈ b))

/-- Functional update of the sessions map. -/
def setState (st : AuthState) (sid : String) (s : Session) : AuthState :=
  fun k => if k = sid then some s else st k

/-- The empty sessions store (fresh `sessions.json`). -/
def emptyState : AuthState := fun _ => none

/-- The session record written by `create_session`. -/
def freshSession (scopes : ScopesArg) (now : Nat) : Session :=
  { created_at := now
    status := "pending"
    redirect_uri := REDIRECT_URI
    scopes := normScopes scopes
    token_data := none
    scopes_history := []
    last_error := none
    last_authorized := none }

/-- `GoogleUnifiedAuth.create_session`. -/
def create_session (st : AuthState) (sid : String) (scopes : ScopesArg)
    (now : Nat) : AuthState :=
  setState st sid (freshSession scopes now)

/-- `GoogleUnifiedAuth.update_session`: sets `status` unconditionally and
`token_data` only when the argument is truthy. -/
def update_session (st : AuthState) (sid : String) (status : String)
    (token_data : Option TokenRecord) : AuthState :=
  match st sid with
  | none => st
  | some s =>
      setState st sid
        { s with
          status := status
          token_data := match token_data with
            | some td => some td
            | none => s.token_data }

/-- The resolved credential object (`google.oauth2.credentials.Credentials`)
as far as this subsystem reads or writes it. -/
structure Credentials where
  token : String
  refresh_token : Option String
  client_id : Option String
  client_secret : Option String
  scopes : List String
deriving Repr, DecidableEq

/-- The provider-side behaviour of a `get_credentials` call: whether the
constructed credential is expired, and what `creds.refresh(...)` would
return (a new access token, or a raised exception). -/
structure ResolveEnv where
  expired : Bool
  refreshResult : Except PyExn String
deriving Repr

/-- The `scopes_to_use` computation of `get_credentials`: `none` encodes
the early `return None` when required scopes are not all authorized. -/
def scopes_to_use (required_scopes : Option ScopesArg)
    (authorized : List String) : Option (List String) :=
  match required_scopes with
  | some r =>
      if pyTruthyArg r then
        if isSubsetB (normScopes r) authorized then some (normScopes r)
        else none
      else some authorized
  | none => some authorized

/-- `GoogleUnifiedAuth.get_credentials`. Returns the updated store and
either a raised exception (refresh failure) or an optional credential. -/
def get_credentials (st : AuthState) (sid : String)
    (required_scopes : Option ScopesArg) (env : ResolveEnv) :
    AuthState × Except PyExn (Option Credentials) :=
  match st sid with
  | none => (st, .ok none)
  | some s =>
    match s.token_data with
    | none => (st, .ok none)
    | some td =>
      match scopes_to_use required_scopes td.scopes with
      | none => (st, .ok none)
      | some scopesToUse =>
        if env.expired && optTruthy td.refresh_token then
          match env.refreshResult with
          | .error e => (st, .error e)
          | .ok t' =>
              (setState st sid { s with token_data := some { td with token := t' } },
               .ok (some { token := t'
                           refresh_token := td.refresh_token
                           client_id := td.client_id
                           client_secret := td.client_secret
                           scopes := scopesToUse }))
        else (st, .ok (some { token := td.token
                              refresh_token := td.refresh_token
                              client_id := td.client_id
                              client_secret := td.client_secret
                              scopes := scopesToUse }))

/-- The authorization URL built by `get_auth_url`: the query parameters
the oauthlib flow puts into the URL string. -/
structure AuthUrl where
  state : String
  scopes : List String
  accessType : String
  prompt : String
deriving Repr, DecidableEq

/-- `GoogleUnifiedAuth.get_auth_url`. Returns `none` for the `""` result
on a missing session. `new_scopes`, when truthy, overrides the session's
scope list. -/
def get_auth_url (st : AuthState) (sid : String)
    (new_scopes : Option (List String)) : Option AuthUrl :=
  match st sid with
  | none => none
  | some s =>
    let scopes := match new_scopes with
      | some l => if l ≠ [] then l else s.scopes
      | none => s.scopes
    some { state := sid, scopes := scopes,
           accessType := "offline", prompt := "consent" }

/-- The `new scopes needed` branch of `authenticate` (lines 211-221):
merge the requested scopes into the session, mark it
`pending_additional_scopes`, and build the auth URL for the union. -/
def authMerge (st : AuthState) (sid : String) (s : Session)
    (scopeL : List String) :
    AuthState × Except PyExn (Option Credentials × Option AuthUrl) :=
  let newScopes := pyUnion s.scopes scopeL
  let st' := setState st sid
    { s with scopes := newScopes, status := "pending_additional_scopes" }
  (st', .ok (none, get_auth_url st' sid (some newScopes)))

/-- `GoogleUnifiedAuth.authenticate`. -/
def authenticate (st : AuthState) (sid : String) (scope : ScopesArg)
    (env : ResolveEnv) (now : Nat) :
    AuthState × Except PyExn (Option Credentials × Option AuthUrl) :=
  match st sid with
  | some s =>
    if s.token_data.isSome then
      if isSubsetB (normScopes scope) s.scopes then
        match get_credentials st sid (some (.list (normScopes scope))) env with
        | (st', .error e) => (st', .error e)
        | (st', .ok (some c)) => (st', .ok (some c, none))
        | (_, .ok none) => authMerge st sid s (normScopes scope)
      else authMerge st sid s (normScopes scope)
    else
      (st, .ok (none, get_auth_url st sid none))
  | none =>
    (create_session st sid scope now,
     .ok (none, get_auth_url (create_session st sid scope now) sid none))

/-- The result of a successful `flow.fetch_token(code)`: the fields of
`flow.credentials` that the callback reads. -/
structure Exchanged where
  token : String
  client_id : Option String
  client_secret : Option String
  refresh_token : Option String
deriving Repr, DecidableEq

/-- The scope set the callback commits: the session's scopes, updated —
in the Python-iteration sense — with the `new_scopes` argument when that
is truthy (`current_scopes.update(new_scopes)` then `list(...)`). -/
def cbScopes (cur : List String) (new_scopes : Option ScopesArg) :
    List String :=
  match new_scopes with
  | some v => if pyTruthyArg v then pyUnion cur (iterStrs v) else cur
  | none => cur

/-- The refresh-token choice of the callback (lines 287-292): take the
newly issued one when truthy, else carry forward a truthy previous one,
else leave the key absent. -/
def carryRefresh (fresh : Option String) (prev : Option TokenRecord) :
    Option String :=
  if optTruthy fresh then fresh
  else match prev with
    | some p => if optTruthy p.refresh_token then p.refresh_token else none
    | none => none

/-- The session record committed by a successful callback. -/
def cbCommit (s : Session) (new_scopes : Option ScopesArg) (ex : Exchanged)
    (now : Nat) : Session :=
  { s with
    scopes := cbScopes s.scopes new_scopes
    token_data := some
      { token := ex.token
        client_id := ex.client_id
        client_secret := ex.client_secret
        scopes := cbScopes s.scopes new_scopes
        refresh_token := carryRefresh ex.refresh_token s.token_data
        last_updated := some now }
    status := "completed"
    last_authorized := some now
    scopes_history :=
      if (s.status == "pending_additional_scopes")
          || newScopesTruthy new_scopes then
        s.scopes_history ++ [⟨now, "added_scopes", cbScopes s.scopes new_scopes⟩]
      else s.scopes_history }

/-- The session record written by the `except` handler of the callback. -/
def cbFail (s : Session) (e : PyExn) (now : Nat) : Session :=
  { s with status := "failed", last_error := some ⟨now, e.ty, e.msg⟩ }

/-- `GoogleUnifiedAuth.handle_oauth_callback`. The code exchange outcome
is the `exch` parameter; any exception in the `try` block lands in the
`.error` branch, which marks the session `failed`, records `last_error`
and re-raises. -/
def handle_oauth_callback (st : AuthState) (sid : String)
    (new_scopes : Option ScopesArg) (exch : Except PyExn Exchanged)
    (now : Nat) : AuthState × Except PyExn (Option Credentials) :=
  match st sid with
  | none => (st, .ok none)
  | some s =>
    match exch with
    | .error e => (setState st sid (cbFail s e now), .error e)
    | .ok ex =>
        (setState st sid (cbCommit s new_scopes ex now),
         .ok (some { token := ex.token
                     refresh_token := ex.refresh_token
                     client_id := ex.client_id
                     client_secret := ex.client_secret
                     scopes := cbScopes s.scopes new_scopes }))

/-- `GoogleUnifiedAuth.has_scope`. -/
def has_scope (st : AuthState) (sid : String) (scope : String) : Bool :=
  match st sid with
  | none => false
  | some s => s.token_data.isSome && decide (scope ∈ s.scopes)

/-- The `oauth_callback` route of `oauth_routes.py`: it forwards the raw
optional `scope` query parameter — a `str` — as the `new_scopes` argument
of `handle_oauth_callback`. -/
def oauth_callback_route (st : AuthState) (state : String)
    (exch : Except PyExn Exchanged) (scope : Option String) (now : Nat) :
    AuthState × Except PyExn (Option Credentials) :=
  handle_oauth_callback st state (scope.map ScopesArg.str) exch now

/-- The session's scope list, `[]` for a missing session. -/
def scopesOf (st : AuthState) (sid : String) : List String :=
  match st sid with
  | none => []
  | some s => s.scopes

/-! ## Basic lemmas about the set model -/

lemma mem_pyUnion {x : String} {a b : List String} :
    x ∈ pyUnion a b ↔ x ∈ a ∨ x ∈ b := by
  simp only [pyUnion, List.mem_append, List.mem_filter, decide_eq_true_eq]
  constructor
  · rintro (h | ⟨h, _⟩)
    · exact Or.inl h
    · exact Or.inr h
  · rintro (h | h)
    · exact Or.inl h
    · by_cases ha : x ∈ a
      · exact Or.inl ha
      · exact Or.inr ⟨h, ha⟩

lemma subset_pyUnion_left (a b : List String) : a ⊆ pyUnion a b :=
  fun _ h => mem_pyUnion.mpr (Or.inl h)

lemma subset_pyUnion_right (a b : List String) : b ⊆ pyUnion a b :=
  fun _ h => mem_pyUnion.mpr (Or.inr h)

lemma pyUnion_idem (a b : List String) :
    pyUnion (pyUnion a b) b = pyUnion a b := by
  unfold pyUnion
  rw [List.append_right_eq_self]
  apply List.filter_eq_nil_iff.mpr
  intro x hx
  simp only [decide_eq_true_eq, Decidable.not_not, List.mem_append,
    List.mem_filter]
  by_cases ha : x ∈ a
  · exact Or.inl ha
  · exact Or.inr (by simp [hx, ha])

lemma isSubsetB_iff {a b : List String} : isSubsetB a b = true ↔ a ⊆ b := by
  simp only [isSubsetB, List.all_eq_true, decide_eq_true_eq]
  exact ⟨fun h _ hx => h _ hx, fun h _ hx => h hx⟩

lemma scopesOf_setState_self (st : AuthState) (sid : String) (s : Session) :
    scopesOf (setState st sid s) sid = s.scopes := by
  simp [scopesOf, setState]

lemma scopesOf_setState_ne (st : AuthState) (sid k : String) (s : Session)
    (h : k ≠ sid) : scopesOf (setState st sid s) k = scopesOf st k := by
  simp [scopesOf, setState, h]

/-! ## Call sequences of the public entry points -/

/-- One call of the two public entry points that drive the session state
machine: `authenticate` or `handle_oauth_callback`, with the environment
(provider behaviour, clock) it ran under. -/
inductive AuthEvent where
  | auth (sid : String) (scope : ScopesArg) (env : ResolveEnv) (now : Nat)
  | cb (sid : String) (new : Option ScopesArg)
      (exch : Except PyExn Exchanged) (now : Nat)

/-- Effect of one event on the session store. -/
def stepEvent (st : AuthState) (ev : AuthEvent) : AuthState :=
  match ev with
  | .auth sid scope env now => (authenticate st sid scope env now).1
  | .cb sid new exch now => (handle_oauth_callback st sid new exch now).1

/-- Effect of a sequence of events on the session store. -/
def runEvents (st : AuthState) (evs : List AuthEvent) : AuthState :=
  evs.foldl stepEvent st

lemma scopesOf_get_credentials (st : AuthState) (sid : String)
    (req : Option ScopesArg) (env : ResolveEnv) (k : String) :
    scopesOf (get_credentials st sid req env).1 k = scopesOf st k := by
  unfold get_credentials
  split
  · rfl
  next s hs =>
    split
    · rfl
    next td htd =>
      split
      · rfl
      · split
        · split
          · rfl
          · by_cases hk : k = sid
            · subst hk; simp [scopesOf, setState, hs]
            · simp [scopesOf, setState, hk]
        · rfl

lemma scopesOf_authMerge (st : AuthState) (sid : String) (s : Session)
    (scopeL : List String) (k : String) (hs : st sid = some s) :
    scopesOf st k ⊆ scopesOf (authMerge st sid s scopeL).1 k := by
  by_cases hk : k = sid
  · subst hk
    simp only [authMerge]
    rw [scopesOf_setState_self]
    simp only [scopesOf, hs]
    exact subset_pyUnion_left _ _
  · simp only [authMerge, scopesOf_setState_ne _ _ _ _ hk]
    exact fun x hx => hx

lemma scopesOf_authenticate_subset (st : AuthState) (sid : String)
    (scope : ScopesArg) (env : ResolveEnv) (now : Nat) (k : String) :
    scopesOf st k ⊆ scopesOf (authenticate st sid scope env now).1 k := by
  unfold authenticate
  split
  next s hs =>
    split
    · split
      · split
        next st' e hgc =>
          intro x hx
          have h2 := scopesOf_get_credentials st sid
            (some (.list (normScopes scope))) env k
          rw [hgc] at h2
          simpa [h2] using hx
        next st' c hgc =>
          intro x hx
          have h2 := scopesOf_get_credentials st sid
            (some (.list (normScopes scope))) env k
          rw [hgc] at h2
          simpa [h2] using hx
        next st' hgc =>
          exact scopesOf_authMerge st sid s _ k hs
      · exact scopesOf_authMerge st sid s _ k hs
    · exact fun x hx => hx
  next hs =>
    by_cases hk : k = sid
    · subst hk
      simp [scopesOf, hs]
    · simp only [create_session, scopesOf_setState_ne _ _ _ _ hk]
      exact fun x hx => hx

lemma subset_cbScopes (cur : List String) (new : Option ScopesArg) :
    cur ⊆ cbScopes cur new := by
  unfold cbScopes
  split
  · split
    · exact subset_pyUnion_left _ _
    · exact fun x hx => hx
  · exact fun x hx => hx

lemma scopesOf_callback_subset (st : AuthState) (sid : String)
    (new : Option ScopesArg) (exch : Except PyExn Exchanged) (now : Nat)
    (k : String) :
    scopesOf st k ⊆ scopesOf (handle_oauth_callback st sid new exch now).1 k := by
  unfold handle_oauth_callback
  split
  · exact fun x hx => hx
  next s hs =>
    split
    · by_cases hk : k = sid
      · subst hk
        rw [scopesOf_setState_self]
        simp only [cbFail, scopesOf, hs]
        exact fun x hx => hx
      · simp only [scopesOf_setState_ne _ _ _ _ hk]
        exact fun x hx => hx
    · by_cases hk : k = sid
      · subst hk
        rw [scopesOf_setState_self]
        simp only [cbCommit, scopesOf, hs]
        exact subset_cbScopes _ _
      · simp only [scopesOf_setState_ne _ _ _ _ hk]
        exact fun x hx => hx

lemma scopesOf_stepEvent_subset (st : AuthState) (ev : AuthEvent)
    (k : String) : scopesOf st k ⊆ scopesOf (stepEvent st ev) k := by
  cases ev with
  | auth sid scope env now => exact scopesOf_authenticate_subset st sid scope env now k
  | cb sid new exch now => exact scopesOf_callback_subset st sid new exch now k

lemma scopesOf_runEvents_subset (evs : List AuthEvent) (st : AuthState)
    (k : String) : scopesOf st k ⊆ scopesOf (runEvents st evs) k := by
  induction evs generalizing st with
  | nil => exact fun x hx => hx
  | cons ev evs ih =>
      intro x hx
      exact ih (stepEvent st ev) (scopesOf_stepEvent_subset st ev k hx)

/-- C3: along any sequence of `authenticate`/`handle_oauth_callback`
calls, every session's scope set never loses an element. -/
theorem c3_scopes_monotone (st : AuthState) (evs : List AuthEvent)
    (sid : String) : scopesOf st sid ⊆ scopesOf (runEvents st evs) sid :=
  scopesOf_runEvents_subset evs st sid

/-! ## The refresh-token invariant (C1) -/

/-- The session's stored token data, `none` for a missing session. -/
def tokenDataOf (st : AuthState) (sid : String) : Option TokenRecord :=
  match st sid with
  | none => none
  | some s => s.token_data

/-- The session currently holds token data with a truthy refresh token. -/
def refreshPresent (st : AuthState) (sid : String) : Prop :=
  ∃ td, tokenDataOf st sid = some td ∧ optTruthy td.refresh_token = true

lemma carryRefresh_truthy (fresh : Option String) (p : TokenRecord)
    (hp : optTruthy p.refresh_token = true) :
    optTruthy (carryRefresh fresh (some p)) = true := by
  unfold carryRefresh
  split
  next hf => exact hf
  · simp [hp]

lemma carryRefresh_of_not_fresh (fresh : Option String) (p : TokenRecord)
    (hp : optTruthy p.refresh_token = true)
    (hf : optTruthy fresh = false) :
    carryRefresh fresh (some p) = p.refresh_token := by
  unfold carryRefresh
  simp [hf, hp]

lemma carryRefresh_of_fresh (fresh : Option String) (prev : Option TokenRecord)
    (hf : optTruthy fresh = true) :
    carryRefresh fresh prev = fresh := by
  unfold carryRefresh
  simp [hf]

lemma refreshPresent_get_credentials (st : AuthState) (sid : String)
    (req : Option ScopesArg) (env : ResolveEnv) (k : String)
    (h : refreshPresent st k) :
    refreshPresent (get_credentials st sid req env).1 k := by
  unfold get_credentials
  split
  · exact h
  next s hs =>
    split
    · exact h
    next td htd =>
      split
      · exact h
      · split
        · split
          · exact h
          next t' hres =>
            by_cases hk : k = sid
            · subst hk
              obtain ⟨td0, htd0, hr⟩ := h
              simp only [tokenDataOf, hs, htd, Option.some.injEq] at htd0
              subst htd0
              refine ⟨{ td with token := t' }, ?_, hr⟩
              simp [tokenDataOf, setState]
            · obtain ⟨td0, htd0, hr⟩ := h
              exact ⟨td0, by simpa [tokenDataOf, setState, hk] using htd0, hr⟩
        · exact h

lemma refreshPresent_authenticate (st : AuthState) (sid : String)
    (scope : ScopesArg) (env : ResolveEnv) (now : Nat) (k : String)
    (h : refreshPresent st k) :
    refreshPresent (authenticate st sid scope env now).1 k := by
  unfold authenticate
  split
  next s hs =>
    split
    · split
      · split
        next st' e hgc =>
          have h2 := refreshPresent_get_credentials st sid
            (some (.list (normScopes scope))) env k h
          rw [hgc] at h2
          exact h2
        next st' c hgc =>
          have h2 := refreshPresent_get_credentials st sid
            (some (.list (normScopes scope))) env k h
          rw [hgc] at h2
          exact h2
        next st' hgc =>
          by_cases hk : k = sid
          · subst hk
            obtain ⟨td0, htd0, hr⟩ := h
            simp only [tokenDataOf, hs] at htd0
            exact ⟨td0, by simp [authMerge, tokenDataOf, setState, htd0], hr⟩
          · obtain ⟨td0, htd0, hr⟩ := h
            exact ⟨td0, by simpa [authMerge, tokenDataOf, setState, hk] using htd0, hr⟩
      · by_cases hk : k = sid
        · subst hk
          obtain ⟨td0, htd0, hr⟩ := h
          simp only [tokenDataOf, hs] at htd0
          exact ⟨td0, by simp [authMerge, tokenDataOf, setState, htd0], hr⟩
        · obtain ⟨td0, htd0, hr⟩ := h
          exact ⟨td0, by simpa [authMerge, tokenDataOf, setState, hk] using htd0, hr⟩
    · exact h
  next hs =>
    by_cases hk : k = sid
    · subst hk
      obtain ⟨td0, htd0, _⟩ := h
      simp [tokenDataOf, hs] at htd0
    · obtain ⟨td0, htd0, hr⟩ := h
      exact ⟨td0, by simpa [create_session, tokenDataOf, setState, hk] using htd0, hr⟩

lemma refreshPresent_callback (st : AuthState) (sid : String)
    (new : Option ScopesArg) (exch : Except PyExn Exchanged) (now : Nat)
    (k : String) (h : refreshPresent st k) :
    refreshPresent (handle_oauth_callback st sid new exch now).1 k := by
  unfold handle_oauth_callback
  split
  · exact h
  next s hs =>
    split
    · by_cases hk : k = sid
      · subst hk
        obtain ⟨td0, htd0, hr⟩ := h
        simp only [tokenDataOf, hs] at htd0
        exact ⟨td0, by simp [cbFail, tokenDataOf, setState, htd0], hr⟩
      · obtain ⟨td0, htd0, hr⟩ := h
        exact ⟨td0, by simpa [tokenDataOf, setState, hk] using htd0, hr⟩
    next ex =>
      by_cases hk : k = sid
      · subst hk
        obtain ⟨td0, htd0, hr⟩ := h
        simp only [tokenDataOf, hs] at htd0
        refine ⟨{ token := ex.token, client_id := ex.client_id,
                  client_secret := ex.client_secret,
                  scopes := cbScopes s.scopes new,
                  refresh_token := carryRefresh ex.refresh_token s.token_data,
                  last_updated := some now }, ?_, ?_⟩
        · simp [cbCommit, tokenDataOf, setState]
        · show optTruthy (carryRefresh ex.refresh_token s.token_data) = true
          rw [htd0]
          exact carryRefresh_truthy ex.refresh_token td0 hr
      · obtain ⟨td0, htd0, hr⟩ := h
        exact ⟨td0, by simpa [tokenDataOf, setState, hk] using htd0, hr⟩

lemma refreshPresent_stepEvent (st : AuthState) (ev : AuthEvent)
    (k : String) (h : refreshPresent st k) :
    refreshPresent (stepEvent st ev) k := by
  cases ev with
  | auth sid scope env now => exact refreshPresent_authenticate st sid scope env now k h
  | cb sid new exch now => exact refreshPresent_callback st sid new exch now k h

lemma refreshPresent_runEvents (evs : List AuthEvent) (st : AuthState)
    (k : String) (h : refreshPresent st k) :
    refreshPresent (runEvents st evs) k := by
  induction evs generalizing st with
  | nil => exact h
  | cons ev evs ih => exact ih (stepEvent st ev) (refreshPresent_stepEvent st ev k h)

/-- C1: once a session's token data holds a (truthy) refresh token,
(a) any successful `handle_oauth_callback` commits a token record whose
refresh token is again present — the newly issued one when the exchange
yields a truthy refresh token, and otherwise the previous refresh token
carried forward unchanged — and (b) the refresh token stays present
across any sequence of `authenticate`/`handle_oauth_callback` calls,
so this holds at every subsequent successful callback. -/
theorem c1_refresh_token_never_dropped (st : AuthState) (sid : String)
    (td : TokenRecord) (htd : tokenDataOf st sid = some td)
    (hr : optTruthy td.refresh_token = true) :
    (∀ new ex now, ∃ td',
      tokenDataOf (handle_oauth_callback st sid new (.ok ex) now).1 sid
        = some td'
      ∧ optTruthy td'.refresh_token = true
      ∧ (optTruthy ex.refresh_token = false →
          td'.refresh_token = td.refresh_token)
      ∧ (optTruthy ex.refresh_token = true →
          td'.refresh_token = ex.refresh_token))
    ∧ ∀ evs : List AuthEvent, refreshPresent (runEvents st evs) sid := by
  constructor
  · intro new ex now
    unfold tokenDataOf at htd
    rcases hst : st sid with _ | s
    · rw [hst] at htd; cases htd
    · rw [hst] at htd
      replace htd : s.token_data = some td := htd
      refine ⟨{ token := ex.token, client_id := ex.client_id,
                client_secret := ex.client_secret,
                scopes := cbScopes s.scopes new,
                refresh_token := carryRefresh ex.refresh_token s.token_data,
                last_updated := some now }, ?_, ?_, ?_, ?_⟩
      · unfold handle_oauth_callback
        rw [hst]
        simp [cbCommit, tokenDataOf, setState]
      · show optTruthy (carryRefresh ex.refresh_token s.token_data) = true
        rw [htd]
        exact carryRefresh_truthy ex.refresh_token td hr
      · intro hf
        show carryRefresh ex.refresh_token s.token_data = td.refresh_token
        rw [htd]
        exact carryRefresh_of_not_fresh ex.refresh_token td hr hf
      · intro hf
        exact carryRefresh_of_fresh ex.refresh_token s.token_data hf
  · intro evs
    exact refreshPresent_runEvents evs st sid ⟨td, htd, hr⟩

/-- Witness for `c1_refresh_token_never_dropped` at a concrete store. -/
def c1Token : TokenRecord :=
  { token := "tok", client_id := some "cid", client_secret := some "sec",
    scopes := ["A"], refresh_token := some "rt", last_updated := some 1 }

/-- A concrete one-session store: session `"s1"` is completed with scope
`"A"` and holds refresh token `"rt"`. -/
def c1State : AuthState := fun k =>
  if k = "s1" then
    some { created_at := 0, status := "completed",
           redirect_uri := REDIRECT_URI, scopes := ["A"],
           token_data := some c1Token, scopes_history := [],
           last_error := none, last_authorized := some 1 }
  else none

theorem c1_refresh_token_never_dropped_witness :
    tokenDataOf c1State "s1" = some c1Token
    ∧ optTruthy c1Token.refresh_token = true
    ∧ ((∀ new ex now, ∃ td',
        tokenDataOf (handle_oauth_callback c1State "s1" new (.ok ex) now).1 "s1"
          = some td'
        ∧ optTruthy td'.refresh_token = true
        ∧ (optTruthy ex.refresh_token = false →
            td'.refresh_token = c1Token.refresh_token)
        ∧ (optTruthy ex.refresh_token = true →
            td'.refresh_token = ex.refresh_token))
      ∧ ∀ evs : List AuthEvent, refreshPresent (runEvents c1State evs) "s1") :=
  ⟨by simp [tokenDataOf, c1State], by simp [c1Token, optTruthy],
   c1_refresh_token_never_dropped c1State "s1" c1Token
     (by simp [tokenDataOf, c1State]) (by simp [c1Token, optTruthy])⟩

/-! ## Callback failure handling (C4) -/

/-- The claimed behaviour of a failing callback on session `sid` holding
record `s`, and of a retry after it: failure marks the session `failed`
with `last_error` populated and `token_data`/`scopes` untouched, re-raises
the exception, and a later successful callback completes the session. -/
def CallbackFailureSpec (st : AuthState) (sid : String) (s : Session)
    (e : PyExn) (new : Option ScopesArg) (now : Nat) : Prop :=
  handle_oauth_callback st sid new (.error e) now
    = (setState st sid (cbFail s e now), .error e)
  ∧ (cbFail s e now).status = "failed"
  ∧ (cbFail s e now).last_error = some ⟨now, e.ty, e.msg⟩
  ∧ (cbFail s e now).token_data = s.token_data
  ∧ (cbFail s e now).scopes = s.scopes
  ∧ (∀ new' ex now', ∃ s' c,
      handle_oauth_callback (setState st sid (cbFail s e now)) sid new'
          (.ok ex) now'
        = (setState (setState st sid (cbFail s e now)) sid s',
           .ok (some c))
      ∧ s'.status = "completed" ∧ s'.token_data.isSome = true)

/-- C4: a token-exchange failure inside `handle_oauth_callback` sets
`status = failed`, records `last_error` (time, kind, message), leaves the
previously stored `token_data` unchanged, propagates the exception, and
leaves the session retriable: a later successful callback completes it. -/
theorem c4_callback_failure_recorded (st : AuthState) (sid : String)
    (s : Session) (hs : st sid = some s) (e : PyExn)
    (new : Option ScopesArg) (now : Nat) :
    CallbackFailureSpec st sid s e new now := by
  refine ⟨?_, rfl, rfl, rfl, rfl, ?_⟩
  · unfold handle_oauth_callback
    rw [hs]
  · intro new' ex now'
    refine ⟨cbCommit (cbFail s e now) new' ex now',
      { token := ex.token, refresh_token := ex.refresh_token,
        client_id := ex.client_id, client_secret := ex.client_secret,
        scopes := cbScopes (cbFail s e now).scopes new' }, ?_, rfl, rfl⟩
    unfold handle_oauth_callback
    have h2 : (setState st sid (cbFail s e now)) sid
        = some (cbFail s e now) := by simp [setState]
    rw [h2]

/-- The token record of the concrete session used to witness C4. -/
def c4Token : TokenRecord :=
  { token := "t", client_id := none, client_secret := none,
    scopes := ["A"], refresh_token := some "r", last_updated := some 0 }

/-- A concrete completed session used to witness C4. -/
def c4Session : Session :=
  { created_at := 0, status := "completed",
    redirect_uri := REDIRECT_URI, scopes := ["A"],
    token_data := some c4Token,
    scopes_history := [], last_error := none,
    last_authorized := some 0 }

/-- A one-session store holding `c4Session` under id `"s4"`. -/
def c4State : AuthState := fun k =>
  if k = "s4" then some c4Session else none

theorem c4_callback_failure_recorded_witness :
    c4State "s4" = some c4Session
    ∧ CallbackFailureSpec c4State "s4" c4Session ⟨"ValueError", "bad"⟩ none 7 :=
  ⟨rfl, c4_callback_failure_recorded c4State "s4" c4Session rfl
    ⟨"ValueError", "bad"⟩ none 7⟩

/-! ## Credential resolution (C5) -/

/-- The claimed `get_credentials` contract: null for a missing session or
missing token data; null when a (truthy) required scope set is not fully
authorized in the session's token data; the exact required scopes on the
credential when they are authorized; all authorized scopes when no
required scopes are given. -/
def ResolveSpec (st : AuthState) (sid : String)
    (required : Option ScopesArg) (env : ResolveEnv) : Prop :=
  (st sid = none → get_credentials st sid required env = (st, .ok none))
  ∧ (∀ s, st sid = some s → s.token_data = none →
      get_credentials st sid required env = (st, .ok none))
  ∧ (∀ s td r, st sid = some s → s.token_data = some td →
      required = some r → pyTruthyArg r = true →
      ¬ (normScopes r ⊆ td.scopes) →
      get_credentials st sid required env = (st, .ok none))
  ∧ (∀ s td r, st sid = some s → s.token_data = some td →
      required = some r → pyTruthyArg r = true →
      normScopes r ⊆ td.scopes →
      get_credentials st sid required env =
        (st, .ok (some { token := td.token
                         refresh_token := td.refresh_token
                         client_id := td.client_id
                         client_secret := td.client_secret
                         scopes := normScopes r })))
  ∧ (∀ s td, st sid = some s → s.token_data = some td →
      required = none →
      get_credentials st sid required env =
        (st, .ok (some { token := td.token
                         refresh_token := td.refresh_token
                         client_id := td.client_id
                         client_secret := td.client_secret
                         scopes := td.scopes })))

/-- C5: the `get_credentials` contract, for a non-expired credential
(no refresh attempted): null on a missing session, missing token data, or
unauthorized required scopes; exactly the required scopes on the returned
credential when given and authorized, otherwise all authorized scopes. -/
theorem c5_get_credentials_contract (st : AuthState) (sid : String)
    (required : Option ScopesArg) (env : ResolveEnv)
    (henv : env.expired = false) :
    ResolveSpec st sid required env := by
  refine ⟨?_, ?_, ?_, ?_, ?_⟩
  · intro h
    unfold get_credentials
    rw [h]
  · intro s hs htd
    simp only [get_credentials, hs, htd]
  · intro s td r hs htd hr htr hsub
    simp only [get_credentials, scopes_to_use, hs, htd, hr, htr, if_true]
    rw [if_neg]
    intro hc
    exact hsub (isSubsetB_iff.mp hc)
  · intro s td r hs htd hr htr hsub
    simp only [get_credentials, scopes_to_use, hs, htd, hr, htr, if_true]
    rw [if_pos (isSubsetB_iff.mpr hsub)]
    simp [henv]
  · intro s td hs htd hr
    simp only [get_credentials, scopes_to_use, hs, htd, hr]
    simp [henv]

/-- The token record of the concrete session used to witness C5:
scope `"A"` authorized. -/
def c5Token : TokenRecord :=
  { token := "t5", client_id := some "ci", client_secret := some "cs",
    scopes := ["A"], refresh_token := some "r5", last_updated := some 0 }

/-- A concrete completed session for the resolver witness. -/
def c5State : AuthState := fun k =>
  if k = "s5" then
    some { created_at := 0, status := "completed",
           redirect_uri := REDIRECT_URI, scopes := ["A"],
           token_data := some c5Token, scopes_history := [],
           last_error := none, last_authorized := some 0 }
  else none

theorem c5_get_credentials_contract_witness :
    (⟨false, .ok "x"⟩ : ResolveEnv).expired = false
    ∧ ResolveSpec c5State "s5" (some (.list ["A"])) ⟨false, .ok "x"⟩ :=
  ⟨rfl, c5_get_credentials_contract c5State "s5" (some (.list ["A"]))
    ⟨false, .ok "x"⟩ rfl⟩

/-! ## Token refresh frame property (C9) -/

/-- The claimed frame property of a successful refresh inside
`get_credentials`: the store is the same except that the session's
`token_data.token` now holds the refreshed access token; the refresh
token, client id, client secret, scopes and every other session field
are unchanged, and the returned credential carries the new token. -/
def RefreshFrameSpec (st : AuthState) (sid : String) (s : Session)
    (td : TokenRecord) (required : Option ScopesArg) (env : ResolveEnv)
    (stu : List String) (t' : String) : Prop :=
  get_credentials st sid required env =
    (setState st sid { s with token_data := some { td with token := t' } },
     .ok (some { token := t'
                 refresh_token := td.refresh_token
                 client_id := td.client_id
                 client_secret := td.client_secret
                 scopes := stu }))
  ∧ ({ td with token := t' } : TokenRecord).refresh_token = td.refresh_token
  ∧ ({ td with token := t' } : TokenRecord).client_id = td.client_id
  ∧ ({ td with token := t' } : TokenRecord).client_secret = td.client_secret
  ∧ ({ td with token := t' } : TokenRecord).scopes = td.scopes
  ∧ ({ s with token_data := some { td with token := t' } } : Session).scopes
      = s.scopes
  ∧ ({ s with token_data := some { td with token := t' } } : Session).status
      = s.status
  ∧ ({ s with token_data := some { td with token := t' } } : Session).scopes_history
      = s.scopes_history
  ∧ (∀ k, k ≠ sid →
      (get_credentials st sid required env).1 k = st k)

/-- C9: a successful token refresh in `get_credentials` updates only the
access-token field of the session's stored `token_data`; the refresh
token, client id, client secret, scopes, all other session fields, and
every other session in the store are unchanged. -/
theorem c9_refresh_updates_only_token (st : AuthState) (sid : String)
    (s : Session) (td : TokenRecord) (required : Option ScopesArg)
    (env : ResolveEnv) (stu : List String) (t' : String)
    (hs : st sid = some s) (htd : s.token_data = some td)
    (hstu : scopes_to_use required td.scopes = some stu)
    (hexp : env.expired = true) (hrt : optTruthy td.refresh_token = true)
    (hres : env.refreshResult = .ok t') :
    RefreshFrameSpec st sid s td required env stu t' := by
  have hmain : get_credentials st sid required env =
      (setState st sid { s with token_data := some { td with token := t' } },
       .ok (some { token := t'
                   refresh_token := td.refresh_token
                   client_id := td.client_id
                   client_secret := td.client_secret
                   scopes := stu })) := by
    simp only [get_credentials, hs, htd, hstu, hexp, hrt, hres,
      Bool.and_self, if_true]
  refine ⟨hmain, rfl, rfl, rfl, rfl, rfl, rfl, rfl, ?_⟩
  intro k hk
  rw [hmain]
  simp [setState, hk]

/-- The token record of the concrete session used to witness C9. -/
def c9Token : TokenRecord :=
  { token := "old", client_id := some "ci", client_secret := some "cs",
    scopes := ["A"], refresh_token := some "r9", last_updated := some 0 }

/-- The concrete session used to witness C9. -/
def c9Session : Session :=
  { created_at := 0, status := "completed",
    redirect_uri := REDIRECT_URI, scopes := ["A"],
    token_data := some c9Token, scopes_history := [],
    last_error := none, last_authorized := some 0 }

/-- A one-session store holding `c9Session` under id `"s9"`. -/
def c9State : AuthState := fun k =>
  if k = "s9" then some c9Session else none

theorem c9_refresh_updates_only_token_witness :
    c9State "s9" = some c9Session
    ∧ c9Session.token_data = some c9Token
    ∧ scopes_to_use none c9Token.scopes = some c9Token.scopes
    ∧ (⟨true, .ok "new"⟩ : ResolveEnv).expired = true
    ∧ optTruthy c9Token.refresh_token = true
    ∧ (⟨true, .ok "new"⟩ : ResolveEnv).refreshResult = .ok "new"
    ∧ RefreshFrameSpec c9State "s9" c9Session c9Token none
        ⟨true, .ok "new"⟩ c9Token.scopes "new" :=
  ⟨rfl, rfl, rfl, rfl, by simp [c9Token, optTruthy], rfl,
   c9_refresh_updates_only_token c9State "s9" c9Session c9Token none
     ⟨true, .ok "new"⟩ c9Token.scopes "new" rfl rfl rfl rfl
     (by simp [c9Token, optTruthy]) rfl⟩

/-! ## has_scope (C10) -/

/-- The token record of the session used for the pending-scope example
in C10: only scope `"A"` was actually issued. -/
def c10Token : TokenRecord :=
  { token := "t10", client_id := none, client_secret := none,
    scopes := ["A"], refresh_token := some "r10", last_updated := some 0 }

/-- The session used for the pending-scope example in C10: completed,
authorized (token) scopes `["A"]`. -/
def c10Session : Session :=
  { created_at := 0, status := "completed",
    redirect_uri := REDIRECT_URI, scopes := ["A"],
    token_data := some c10Token, scopes_history := [],
    last_error := none, last_authorized := some 0 }

/-- A one-session store holding `c10Session` under id `"sx"`. -/
def c10State : AuthState := fun k =>
  if k = "sx" then some c10Session else none

/-- C10: `has_scope` is true exactly when the session exists, has token
data, and the scope is in the session's `scopes` list; and after an
incremental `authenticate` whose callback has not run, it is already true
for the newly requested scope `"B"` even though `"B"` is absent from
`token_data.scopes`. -/
theorem c10_has_scope_characterisation :
    (∀ (st : AuthState) (sid sc : String), has_scope st sid sc = true ↔
      ∃ s, st sid = some s ∧ s.token_data.isSome = true ∧ sc ∈ s.scopes)
    ∧ has_scope (authenticate c10State "sx" (.list ["A", "B"])
        ⟨false, .ok "x"⟩ 0).1 "sx" "B" = true
    ∧ (∃ s td, (authenticate c10State "sx" (.list ["A", "B"])
          ⟨false, .ok "x"⟩ 0).1 "sx" = some s
        ∧ s.token_data = some td ∧ "B" ∉ td.scopes
        ∧ s.status = "pending_additional_scopes") := by
  refine ⟨?_, ?_, ?_⟩
  · intro st sid sc
    unfold has_scope
    split
    next hst =>
      simp only [Bool.false_eq_true, false_iff]
      rintro ⟨s, hs, -, -⟩
      rw [hst] at hs
      cases hs
    next s hst =>
      simp only [Bool.and_eq_true, decide_eq_true_eq]
      constructor
      · rintro ⟨h1, h2⟩
        exact ⟨s, hst, h1, h2⟩
      · rintro ⟨s2, hs2, h1, h2⟩
        rw [hst] at hs2
        cases hs2
        exact ⟨h1, h2⟩
  · decide
  · refine ⟨{ c10Session with
        scopes := ["A", "B"]
        status := "pending_additional_scopes" }, c10Token, ?_, rfl, ?_, rfl⟩
    · decide
    · decide

/-! ## The completed-implies-token invariant (C8) -/

/-- One call of any of the five public operations of
`GoogleUnifiedAuth` that can mutate or read the store. -/
inductive Op where
  | create (sid : String) (scopes : ScopesArg) (now : Nat)
  | auth (sid : String) (scope : ScopesArg) (env : ResolveEnv) (now : Nat)
  | cb (sid : String) (new : Option ScopesArg)
      (exch : Except PyExn Exchanged) (now : Nat)
  | upd (sid : String) (status : String) (td : Option TokenRecord)
  | getCreds (sid : String) (required : Option ScopesArg) (env : ResolveEnv)

/-- Effect of one public operation on the store. -/
def applyOp (st : AuthState) (op : Op) : AuthState :=
  match op with
  | .create sid scopes now => create_session st sid scopes now
  | .auth sid scope env now => (authenticate st sid scope env now).1
  | .cb sid new exch now => (handle_oauth_callback st sid new exch now).1
  | .upd sid status td => update_session st sid status td
  | .getCreds sid required env => (get_credentials st sid required env).1

/-- Effect of a sequence of public operations, from the empty store. -/
def runOps (st : AuthState) (ops : List Op) : AuthState :=
  ops.foldl applyOp st

/-- The claimed invariant: a `completed` session has token data. -/
def CompletedHasToken (st : AuthState) : Prop :=
  ∀ sid s, st sid = some s → s.status = "completed" →
    s.token_data.isSome = true

/-- C8 counterexample: `create_session` followed by
`update_session(sid, "completed")` with no token data — both public
operations — reaches a state whose session is `completed` with
`token_data = None`, refuting the claimed invariant as stated. -/
theorem c8_counterexample_update_session :
    ∃ s, runOps emptyState
        [.create "s1" (.list ["A"]) 0, .upd "s1" "completed" none] "s1"
        = some s
      ∧ s.status = "completed" ∧ s.token_data = none :=
  ⟨{ created_at := 0, status := "completed",
     redirect_uri := REDIRECT_URI, scopes := ["A"], token_data := none,
     scopes_history := [], last_error := none, last_authorized := none },
   by decide, rfl, rfl⟩

/-- The restriction the counterexample forces: `update_session` must not
set status `completed` without supplying token data. -/
def updGuardB : Op → Bool
  | .upd _ status td => !(status == "completed") || td.isSome
  | _ => true

lemma completedHasToken_setState_ne (st : AuthState) (sid : String)
    (s : Session) (hne : s.status ≠ "completed")
    (h : CompletedHasToken st) :
    CompletedHasToken (setState st sid s) := by
  intro k s2 hk hstat
  unfold setState at hk
  by_cases hks : k = sid
  · rw [if_pos hks] at hk
    cases hk
    exact absurd hstat hne
  · rw [if_neg hks] at hk
    exact h k s2 hk hstat

lemma completedHasToken_setState_some (st : AuthState) (sid : String)
    (s : Session) (hsome : s.token_data.isSome = true)
    (h : CompletedHasToken st) :
    CompletedHasToken (setState st sid s) := by
  intro k s2 hk hstat
  unfold setState at hk
  by_cases hks : k = sid
  · rw [if_pos hks] at hk
    cases hk
    exact hsome
  · rw [if_neg hks] at hk
    exact h k s2 hk hstat

lemma completedHasToken_create (st : AuthState) (sid : String)
    (scopes : ScopesArg) (now : Nat) (h : CompletedHasToken st) :
    CompletedHasToken (create_session st sid scopes now) :=
  completedHasToken_setState_ne st sid _ (by intro hc; simp [freshSession] at hc) h

lemma completedHasToken_get_credentials (st : AuthState) (sid : String)
    (required : Option ScopesArg) (env : ResolveEnv)
    (h : CompletedHasToken st) :
    CompletedHasToken (get_credentials st sid required env).1 := by
  unfold get_credentials
  split
  · exact h
  next s hs =>
    split
    · exact h
    next td htd =>
      split
      · exact h
      · split
        · split
          · exact h
          · exact completedHasToken_setState_some st sid _ rfl h
        · exact h

lemma completedHasToken_pending (st : AuthState) (sid : String)
    (s : Session) (scopes : List String) (h : CompletedHasToken st) :
    CompletedHasToken (setState st sid
      { s with scopes := scopes, status := "pending_additional_scopes" }) :=
  completedHasToken_setState_ne st sid _ (by intro hc; simp at hc) h

lemma completedHasToken_authenticate (st : AuthState) (sid : String)
    (scope : ScopesArg) (env : ResolveEnv) (now : Nat)
    (h : CompletedHasToken st) :
    CompletedHasToken (authenticate st sid scope env now).1 := by
  unfold authenticate
  split
  next s hs =>
    split
    · split
      · split
        next st' e hgc =>
          have h2 := completedHasToken_get_credentials st sid
            (some (.list (normScopes scope))) env h
          rw [hgc] at h2
          exact h2
        next st' c hgc =>
          have h2 := completedHasToken_get_credentials st sid
            (some (.list (normScopes scope))) env h
          rw [hgc] at h2
          exact h2
        next st' hgc =>
          exact completedHasToken_pending st sid s _ h
      · exact completedHasToken_pending st sid s _ h
    · exact h
  next hs =>
    exact completedHasToken_create st sid scope now h

lemma completedHasToken_callback (st : AuthState) (sid : String)
    (new : Option ScopesArg) (exch : Except PyExn Exchanged) (now : Nat)
    (h : CompletedHasToken st) :
    CompletedHasToken (handle_oauth_callback st sid new exch now).1 := by
  unfold handle_oauth_callback
  split
  · exact h
  next s hs =>
    split
    · exact completedHasToken_setState_ne st sid _
        (by intro hc; simp [cbFail] at hc) h
    · exact completedHasToken_setState_some st sid _ rfl h

lemma completedHasToken_upd (st : AuthState) (sid : String)
    (status : String) (td : Option TokenRecord)
    (hg : updGuardB (.upd sid status td) = true)
    (h : CompletedHasToken st) :
    CompletedHasToken (update_session st sid status td) := by
  unfold update_session
  split
  · exact h
  next s hs =>
    intro k s2 hk hstat
    unfold setState at hk
    by_cases hks : k = sid
    · rw [if_pos hks] at hk
      cases hk
      simp only [updGuardB, Bool.or_eq_true, Bool.not_eq_true',
        beq_eq_false_iff_ne, ne_eq] at hg
      rcases hg with hg | hg
      · exact absurd hstat hg
      · rcases td with _ | t
        · cases hg
        · rfl
    · rw [if_neg hks] at hk
      exact h k s2 hk hstat

lemma completedHasToken_applyOp (st : AuthState) (op : Op)
    (hg : updGuardB op = true) (h : CompletedHasToken st) :
    CompletedHasToken (applyOp st op) := by
  cases op with
  | create sid scopes now => exact completedHasToken_create st sid scopes now h
  | auth sid scope env now => exact completedHasToken_authenticate st sid scope env now h
  | cb sid new exch now => exact completedHasToken_callback st sid new exch now h
  | upd sid status td => exact completedHasToken_upd st sid status td hg h
  | getCreds sid required env => exact completedHasToken_get_credentials st sid required env h

/-- C8 amended: in every state reachable from the empty store through
the public operations, `status = completed` implies `token_data` is
present — provided `update_session` is never called with status
`completed` and no token data. -/
theorem c8_completed_has_token_amended (ops : List Op)
    (hg : ∀ op ∈ ops, updGuardB op = true) :
    CompletedHasToken (runOps emptyState ops) := by
  have hstart : CompletedHasToken emptyState := by
    intro k s hk
    cases hk
  revert hstart
  have main : ∀ (st : AuthState), CompletedHasToken st →
      CompletedHasToken (runOps st ops) := by
    induction ops with
    | nil => exact fun st h => h
    | cons op ops ih =>
        intro st h
        exact ih (fun o ho => hg o (List.mem_cons_of_mem _ ho))
          (applyOp st op)
          (completedHasToken_applyOp st op (hg op (List.mem_cons_self _ _)) h)
    -- induction handled above
  exact main emptyState

theorem c8_completed_has_token_amended_witness :
    (∀ op ∈ [Op.create "s1" (.list ["A"]) 0,
      Op.cb "s1" none (.ok ⟨"tk", none, none, some "rf"⟩) 1],
      updGuardB op = true)
    ∧ CompletedHasToken (runOps emptyState
        [Op.create "s1" (.list ["A"]) 0,
         Op.cb "s1" none (.ok ⟨"tk", none, none, some "rf"⟩) 1]) :=
  ⟨by decide, c8_completed_has_token_amended _ (by decide)⟩

/-! ## The callback route's scope parameter (C2) -/

/-- The token record of the session used for the C2 evaluation. -/
def c2Token : TokenRecord :=
  { token := "t2a", client_id := none, client_secret := none,
    scopes := ["m"], refresh_token := some "r2a", last_updated := some 0 }

/-- The session used for the C2 evaluation: recorded scopes `["m"]`. -/
def c2Session : Session :=
  { created_at := 0, status := "completed",
    redirect_uri := REDIRECT_URI, scopes := ["m"],
    token_data := some c2Token, scopes_history := [],
    last_error := none, last_authorized := some 0 }

/-- A one-session store holding `c2Session` under id `"s1"`. -/
def c2State : AuthState := fun k =>
  if k = "s1" then some c2Session else none

/-- C2 (failing evaluation): the route hands the raw space-separated
`scope` query string to `handle_oauth_callback`, whose
`current_scopes.update(new_scopes)` iterates the *string*, so for
provider-reported `scope = "a b"` the committed scope set is the union
with the individual characters `"a"`, `" "`, `"b"` — not with the scope
strings `"a"` and `"b"`; in particular the full string `"a b"` is not in
the committed scopes and a bare space is. -/
theorem c2_route_splits_scope_param_into_characters :
    ∃ s, (oauth_callback_route c2State "s1"
        (.ok ⟨"t2", none, none, some "r2"⟩) (some "a b") 5).1 "s1" = some s
      ∧ s.scopes = ["m", "a", " ", "b"]
      ∧ " " ∈ s.scopes ∧ "a b" ∉ s.scopes
      ∧ s.status = "completed" :=
  ⟨cbCommit c2Session (some (.str "a b")) ⟨"t2", none, none, some "r2"⟩ 5,
   by decide, by decide, by decide, by decide, by decide⟩

/-! ## Incremental scope grant (C6) -/

lemma get_auth_url_some (st : AuthState) (sid : String) (s : Session)
    (hs : st sid = some s) :
    get_auth_url st sid none
      = some { state := sid, scopes := s.scopes,
               accessType := "offline", prompt := "consent" } := by
  unfold get_auth_url
  rw [hs]

lemma pyUnion_ne_nil_right (a b : List String) (hb : b ≠ []) :
    pyUnion a b ≠ [] := by
  intro hc
  rcases b with _ | ⟨x, b⟩
  · exact hb rfl
  · have hx : x ∈ pyUnion a (x :: b) := mem_pyUnion.mpr (Or.inr (List.mem_cons_self _ _))
    rw [hc] at hx
    exact List.not_mem_nil x hx

lemma not_subset_nonempty {a b : List String} (h : ¬ b ⊆ a) : b ≠ [] := by
  intro hc
  subst hc
  exact h (List.nil_subset a)

/-- The session record written by the scope-merging branch of
`authenticate` (lines 211-215). -/
def mergedSession (s : Session) (scopeL : List String) : Session :=
  { s with
    scopes := pyUnion s.scopes scopeL
    status := "pending_additional_scopes" }

/-- The authorization URL built by the scope-merging branch of
`authenticate` for the scope union. -/
def mergedUrl (sid : String) (s : Session) (scopeL : List String) : AuthUrl :=
  { state := sid
    scopes := pyUnion s.scopes scopeL
    accessType := "offline"
    prompt := "consent" }

lemma authMerge_eq (st : AuthState) (sid : String) (s : Session)
    (scopeL : List String) (hne : pyUnion s.scopes scopeL ≠ []) :
    authMerge st sid s scopeL =
      (setState st sid (mergedSession s scopeL),
       .ok (none, some (mergedUrl sid s scopeL))) := by
  unfold authMerge get_auth_url setState mergedSession mergedUrl
  simp [hne]

/-- The claimed behaviour of an incremental grant on a session with
token data whose current scopes do not cover the request: the merge
commit, the pending status, the set semantics of the committed scopes
and of the scopes requested by the auth URL, and the completing
callback. -/
def IncrementalGrantSpec (st : AuthState) (sid : String) (s : Session)
    (scope : ScopesArg) (env : ResolveEnv) (now : Nat) : Prop :=
  authenticate st sid scope env now =
    (setState st sid (mergedSession s (normScopes scope)),
     .ok (none, some (mergedUrl sid s (normScopes scope))))
  ∧ (mergedSession s (normScopes scope)).status = "pending_additional_scopes"
  ∧ (∀ x, x ∈ (mergedSession s (normScopes scope)).scopes ↔
      x ∈ s.scopes ∨ x ∈ normScopes scope)
  ∧ (∀ x, x ∈ (mergedUrl sid s (normScopes scope)).scopes ↔
      x ∈ s.scopes ∨ x ∈ normScopes scope)
  ∧ (∀ ex now', ∃ s' c,
      handle_oauth_callback
          (setState st sid (mergedSession s (normScopes scope))) sid none
          (.ok ex) now'
        = (setState (setState st sid (mergedSession s (normScopes scope)))
             sid s', .ok (some c))
      ∧ s'.status = "completed"
      ∧ s'.scopes = pyUnion s.scopes (normScopes scope))

/-- C6: when a session holding token data is asked for scopes beyond its
current set, `authenticate` commits the union, marks the session
`pending_additional_scopes`, and returns no credentials but an auth URL
requesting exactly the union; a subsequent successful callback completes
the session with the union as its scopes. Moreover, whenever the
requested scopes are not a subset of the session's current scopes,
`authenticate` never returns credentials — always an auth URL. -/
theorem c6_incremental_grant (st : AuthState) (sid : String) (s : Session)
    (scope : ScopesArg) (env : ResolveEnv) (now : Nat)
    (hs : st sid = some s) (htd : s.token_data.isSome = true)
    (hnsub : ¬ (normScopes scope ⊆ s.scopes)) :
    IncrementalGrantSpec st sid s scope env now
    ∧ (∀ (st₂ : AuthState) (sid₂ : String) (scope₂ : ScopesArg)
        (env₂ : ResolveEnv) (now₂ : Nat),
        ¬ (normScopes scope₂ ⊆ scopesOf st₂ sid₂) →
        ∃ st₃ url, authenticate st₂ sid₂ scope₂ env₂ now₂
          = (st₃, .ok (none, some url))) := by
  have hmain : ∀ (st₂ : AuthState) (sid₂ : String) (s₂ : Session)
      (scope₂ : ScopesArg) (env₂ : ResolveEnv) (now₂ : Nat),
      st₂ sid₂ = some s₂ → s₂.token_data.isSome = true →
      ¬ (normScopes scope₂ ⊆ s₂.scopes) →
      authenticate st₂ sid₂ scope₂ env₂ now₂ =
        (setState st₂ sid₂ (mergedSession s₂ (normScopes scope₂)),
         .ok (none, some (mergedUrl sid₂ s₂ (normScopes scope₂)))) := by
    intro st₂ sid₂ s₂ scope₂ env₂ now₂ hs₂ htd₂ hnsub₂
    have hbF : isSubsetB (normScopes scope₂) s₂.scopes = false := by
      rcases hcase : isSubsetB (normScopes scope₂) s₂.scopes
      · rfl
      · exact absurd (isSubsetB_iff.mp hcase) hnsub₂
    have hne := pyUnion_ne_nil_right s₂.scopes (normScopes scope₂)
      (not_subset_nonempty hnsub₂)
    rw [← authMerge_eq st₂ sid₂ s₂ (normScopes scope₂) hne]
    simp only [authenticate, hs₂, htd₂, hbF, if_true, Bool.false_eq_true,
      if_false]
  refine ⟨⟨hmain st sid s scope env now hs htd hnsub, rfl, ?_, ?_, ?_⟩, ?_⟩
  · intro x
    exact mem_pyUnion
  · intro x
    exact mem_pyUnion
  · intro ex now'
    refine ⟨cbCommit (mergedSession s (normScopes scope)) none ex now',
      { token := ex.token, refresh_token := ex.refresh_token,
        client_id := ex.client_id, client_secret := ex.client_secret,
        scopes := cbScopes (mergedSession s (normScopes scope)).scopes none },
      ?_, rfl, rfl⟩
    have hlook : (setState st sid (mergedSession s (normScopes scope))) sid
        = some (mergedSession s (normScopes scope)) := by simp [setState]
    simp only [handle_oauth_callback, hlook]
  · intro st₂ sid₂ scope₂ env₂ now₂ hn
    rcases hst₂ : st₂ sid₂ with _ | s₂
    · refine ⟨create_session st₂ sid₂ scope₂ now₂,
        { state := sid₂, scopes := normScopes scope₂,
          accessType := "offline", prompt := "consent" }, ?_⟩
      simp only [authenticate, hst₂]
      have hlook : (create_session st₂ sid₂ scope₂ now₂) sid₂
          = some (freshSession scope₂ now₂) := by
        simp [create_session, setState]
      rw [get_auth_url_some _ _ _ hlook]
      rfl
    · rcases htd₂ : s₂.token_data with _ | td₂
      · refine ⟨st₂, ⟨sid₂, s₂.scopes, "offline", "consent"⟩, ?_⟩
        simp only [authenticate, hst₂, htd₂, Option.isSome_none,
          Bool.false_eq_true, if_false]
        rw [get_auth_url_some _ _ _ hst₂]
      · have hn₂ : ¬ (normScopes scope₂ ⊆ s₂.scopes) := by
          unfold scopesOf at hn
          rw [hst₂] at hn
          exact hn
        exact ⟨_, _, hmain st₂ sid₂ s₂ scope₂ env₂ now₂ hst₂
          (by rw [htd₂]; rfl) hn₂⟩

/-- A session holding token data for scope `"A"` only, for the C6
witness. -/
def c6Token : TokenRecord :=
  { token := "t6", client_id := none, client_secret := none,
    scopes := ["A"], refresh_token := some "r6", last_updated := some 0 }

/-- The concrete session used to witness C6. -/
def c6Session : Session :=
  { created_at := 0, status := "completed",
    redirect_uri := REDIRECT_URI, scopes := ["A"],
    token_data := some c6Token, scopes_history := [],
    last_error := none, last_authorized := some 0 }

/-- A one-session store holding `c6Session` under id `"s6"`. -/
def c6State : AuthState := fun k =>
  if k = "s6" then some c6Session else none

theorem c6_incremental_grant_witness :
    c6State "s6" = some c6Session
    ∧ c6Session.token_data.isSome = true
    ∧ ¬ (normScopes (.list ["A", "B"]) ⊆ c6Session.scopes)
    ∧ (IncrementalGrantSpec c6State "s6" c6Session (.list ["A", "B"])
        ⟨false, .ok "x"⟩ 3
      ∧ (∀ (st₂ : AuthState) (sid₂ : String) (scope₂ : ScopesArg)
          (env₂ : ResolveEnv) (now₂ : Nat),
          ¬ (normScopes scope₂ ⊆ scopesOf st₂ sid₂) →
          ∃ st₃ url, authenticate st₂ sid₂ scope₂ env₂ now₂
            = (st₃, .ok (none, some url)))) :=
  ⟨rfl, rfl, by decide,
   c6_incremental_grant c6State "s6" c6Session (.list ["A", "B"])
     ⟨false, .ok "x"⟩ 3 rfl rfl (by decide)⟩

/-! ## Idempotence of authenticate (C7) -/

lemma setState_eq_self (st : AuthState) (sid : String) (s : Session)
    (h : st sid = some s) : setState st sid s = st := by
  funext k
  unfold setState
  by_cases hk : k = sid
  · rw [if_pos hk, hk, h]
  · rw [if_neg hk]

lemma get_credentials_not_subset (st : AuthState) (sid : String)
    (s : Session) (td : TokenRecord) (S : List String) (env : ResolveEnv)
    (hs : st sid = some s) (htd : s.token_data = some td)
    (hS : S ≠ []) (hns : ¬ S ⊆ td.scopes) :
    get_credentials st sid (some (.list S)) env = (st, .ok none) := by
  have hT : pyTruthyArg (.list S) = true := by simp [pyTruthyArg, hS]
  have hbF : isSubsetB S td.scopes = false := by
    rcases hcase : isSubsetB S td.scopes
    · rfl
    · exact absurd (isSubsetB_iff.mp hcase) hns
  simp [get_credentials, scopes_to_use, hs, htd, hT, hbF, normScopes]

lemma get_credentials_ne_ok_none (st : AuthState) (sid : String)
    (s : Session) (td : TokenRecord) (req : Option ScopesArg)
    (stu : List String) (env : ResolveEnv)
    (hs : st sid = some s) (htd : s.token_data = some td)
    (hstu : scopes_to_use req td.scopes = some stu) :
    (get_credentials st sid req env).2 ≠ .ok none := by
  simp only [get_credentials, hs, htd, hstu]
  split
  · split
    · simp
    · simp
  · simp

lemma get_credentials_ok_none_not_subset (st : AuthState) (sid : String)
    (s : Session) (td : TokenRecord) (S : List String) (env : ResolveEnv)
    (hs : st sid = some s) (htd : s.token_data = some td)
    (hres : (get_credentials st sid (some (.list S)) env).2 = .ok none) :
    S ≠ [] ∧ ¬ S ⊆ td.scopes := by
  by_cases hS : S = []
  · subst hS
    have hstu : scopes_to_use (some (.list ([] : List String))) td.scopes
        = some td.scopes := by simp [scopes_to_use, pyTruthyArg]
    exact absurd hres
      (get_credentials_ne_ok_none st sid s td _ td.scopes env hs htd hstu)
  · refine ⟨hS, fun hsub => ?_⟩
    have hstu : scopes_to_use (some (.list S)) td.scopes = some S := by
      have hT : pyTruthyArg (.list S) = true := by simp [pyTruthyArg, hS]
      simp [scopes_to_use, hT, normScopes, isSubsetB_iff.mpr hsub]
    exact absurd hres
      (get_credentials_ne_ok_none st sid s td _ S env hs htd hstu)

lemma mergedSession_idem (s : Session) (scopeL : List String) :
    mergedSession (mergedSession s scopeL) scopeL = mergedSession s scopeL := by
  unfold mergedSession
  simp [pyUnion_idem]

lemma authenticate_second_merge (st : AuthState) (sid : String)
    (s : Session) (td : TokenRecord) (scope : ScopesArg)
    (env₂ : ResolveEnv) (now₂ : Nat)
    (_hs : st sid = some s) (htd : s.token_data = some td)
    (hS : normScopes scope ≠ []) (hns : ¬ normScopes scope ⊆ td.scopes) :
    authenticate (setState st sid (mergedSession s (normScopes scope))) sid
        scope env₂ now₂
      = (setState st sid (mergedSession s (normScopes scope)),
         .ok (none, some (mergedUrl sid s (normScopes scope)))) := by
  have hlook : (setState st sid (mergedSession s (normScopes scope))) sid
      = some (mergedSession s (normScopes scope)) := by simp [setState]
  have hmtd : (mergedSession s (normScopes scope)).token_data = some td := htd
  have hsubM : isSubsetB (normScopes scope)
      (mergedSession s (normScopes scope)).scopes = true :=
    isSubsetB_iff.mpr (subset_pyUnion_right _ _)
  have hgc := get_credentials_not_subset
    (setState st sid (mergedSession s (normScopes scope))) sid
    (mergedSession s (normScopes scope)) td (normScopes scope) env₂
    hlook hmtd hS hns
  have hne2 : pyUnion (mergedSession s (normScopes scope)).scopes
      (normScopes scope) ≠ [] := pyUnion_ne_nil_right _ _ hS
  rw [show authenticate (setState st sid (mergedSession s (normScopes scope)))
        sid scope env₂ now₂
      = authMerge (setState st sid (mergedSession s (normScopes scope))) sid
          (mergedSession s (normScopes scope)) (normScopes scope) from by
    simp [authenticate, hlook, hmtd, hsubM, hgc]]
  rw [authMerge_eq _ _ _ _ hne2, mergedSession_idem]
  rw [setState_eq_self _ _ _ hlook]
  have hurl : mergedUrl sid (mergedSession s (normScopes scope))
      (normScopes scope) = mergedUrl sid s (normScopes scope) := by
    unfold mergedUrl
    simp [mergedSession, pyUnion_idem]
  rw [hurl]

/-- C7: if `authenticate(sid, S)` returned `(null, authUrl)`, an
immediately repeated `authenticate(sid, S)` (any provider environment,
any clock, no callback in between) returns the same `(null, authUrl)`
and does not change the store at all: in particular it creates no
session and changes no scope set. Stated under the invariant — true of
every state this subsystem itself produces — that a session's
`token_data.scopes` never exceeds its `scopes`. -/
theorem c7_authenticate_idempotent (st : AuthState) (sid : String)
    (scope : ScopesArg) (env env₂ : ResolveEnv) (now now₂ : Nat)
    (st₁ : AuthState) (url : AuthUrl)
    (hinv : ∀ s td, st sid = some s → s.token_data = some td →
      td.scopes ⊆ s.scopes)
    (h1 : authenticate st sid scope env now = (st₁, .ok (none, some url))) :
    authenticate st₁ sid scope env₂ now₂ = (st₁, .ok (none, some url))
    ∧ (∀ k, (authenticate st₁ sid scope env₂ now₂).1 k = st₁ k)
    ∧ scopesOf (authenticate st₁ sid scope env₂ now₂).1 sid
        = scopesOf st₁ sid := by
  have hfirst : authenticate st₁ sid scope env₂ now₂
      = (st₁, .ok (none, some url)) := by
    rcases hst : st sid with _ | s
    · -- no session yet: the first call created it
      have heq : authenticate st sid scope env now
          = (create_session st sid scope now,
             .ok (none, get_auth_url (create_session st sid scope now) sid none)) := by
        simp [authenticate, hst]
      rw [heq] at h1
      have h1a : create_session st sid scope now = st₁ := congrArg Prod.fst h1
      have h1b : get_auth_url (create_session st sid scope now) sid none
          = some url := by
        have h2 := congrArg Prod.snd h1
        simpa using h2
      subst h1a
      have hlook : (create_session st sid scope now) sid
          = some (freshSession scope now) := by simp [create_session, setState]
      have heq2 : authenticate (create_session st sid scope now) sid scope
          env₂ now₂
          = (create_session st sid scope now,
             .ok (none, get_auth_url (create_session st sid scope now) sid none)) := by
        simp [authenticate, hlook, freshSession]
      rw [heq2, h1b]
    · rcases htd : s.token_data with _ | td
      · -- session exists without token data: both calls fall through
        have heq : authenticate st sid scope env now
            = (st, .ok (none, get_auth_url st sid none)) := by
          simp [authenticate, hst, htd]
        rw [heq] at h1
        have h1a : st = st₁ := congrArg Prod.fst h1
        have h1b : get_auth_url st sid none = some url := by
          have h2 := congrArg Prod.snd h1
          simpa using h2
        subst h1a
        have heq2 : authenticate st sid scope env₂ now₂
            = (st, .ok (none, get_auth_url st sid none)) := by
          simp [authenticate, hst, htd]
        rw [heq2, h1b]
      · -- session exists with token data
        have hsubTd := hinv s td hst htd
        by_cases hS : normScopes scope = []
        · -- empty request: the first call must have resolved credentials,
          -- contradicting h1
          exfalso
          have hsub : isSubsetB (normScopes scope) s.scopes = true := by
            rw [hS]; rfl
          have hstu : scopes_to_use (some (.list (normScopes scope))) td.scopes
              = some td.scopes := by
            rw [hS]; simp [scopes_to_use, pyTruthyArg]
          have hne := get_credentials_ne_ok_none st sid s td
            (some (.list (normScopes scope))) td.scopes env hst htd hstu
          rcases hgc : get_credentials st sid (some (.list (normScopes scope))) env
            with ⟨st', r⟩
          rcases r with e | oc
          · have heq : authenticate st sid scope env now = (st', .error e) := by
              simp [authenticate, hst, htd, hsub, hgc]
            rw [heq] at h1
            simp at h1
          · rcases oc with _ | c
            · exact hne (by rw [hgc])
            · have heq : authenticate st sid scope env now
                  = (st', .ok (some c, none)) := by
                simp [authenticate, hst, htd, hsub, hgc]
              rw [heq] at h1
              simp at h1
        · by_cases hsub : normScopes scope ⊆ s.scopes
          · -- requested scopes covered by session scopes: the first call
            -- tried get_credentials; only its null outcome matches h1
            have hsubB : isSubsetB (normScopes scope) s.scopes = true :=
              isSubsetB_iff.mpr hsub
            rcases hgc : get_credentials st sid
                (some (.list (normScopes scope))) env with ⟨st', r⟩
            rcases r with e | oc
            · have heq : authenticate st sid scope env now = (st', .error e) := by
                simp [authenticate, hst, htd, hsubB, hgc]
              rw [heq] at h1
              simp at h1
            · rcases oc with _ | c
              · have hns : ¬ normScopes scope ⊆ td.scopes :=
                  (get_credentials_ok_none_not_subset st sid s td
                    (normScopes scope) env hst htd (by rw [hgc])).2
                have hne := pyUnion_ne_nil_right s.scopes (normScopes scope) hS
                have heq : authenticate st sid scope env now
                    = (setState st sid (mergedSession s (normScopes scope)),
                       .ok (none, some (mergedUrl sid s (normScopes scope)))) := by
                  rw [← authMerge_eq st sid s _ hne]
                  simp [authenticate, hst, htd, hsubB, hgc]
                rw [heq] at h1
                have h1a : setState st sid (mergedSession s (normScopes scope))
                    = st₁ := congrArg Prod.fst h1
                have h1b : mergedUrl sid s (normScopes scope) = url := by
                  have h2 := congrArg Prod.snd h1
                  simpa using h2
                subst h1a
                rw [← h1b]
                exact authenticate_second_merge st sid s td scope env₂ now₂
                  hst htd hS hns
              · have heq : authenticate st sid scope env now
                    = (st', .ok (some c, none)) := by
                  simp [authenticate, hst, htd, hsubB, hgc]
                rw [heq] at h1
                simp at h1
          · -- new scopes: the first call merged directly
            have hns : ¬ normScopes scope ⊆ td.scopes :=
              fun hc => hsub (hc.trans hsubTd)
            have hne := pyUnion_ne_nil_right s.scopes (normScopes scope) hS
            have hsubB : isSubsetB (normScopes scope) s.scopes = false := by
              rcases hcase : isSubsetB (normScopes scope) s.scopes
              · rfl
              · exact absurd (isSubsetB_iff.mp hcase) hsub
            have heq : authenticate st sid scope env now
                = (setState st sid (mergedSession s (normScopes scope)),
                   .ok (none, some (mergedUrl sid s (normScopes scope)))) := by
              rw [← authMerge_eq st sid s _ hne]
              simp [authenticate, hst, htd, hsubB]
            rw [heq] at h1
            have h1a : setState st sid (mergedSession s (normScopes scope))
                = st₁ := congrArg Prod.fst h1
            have h1b : mergedUrl sid s (normScopes scope) = url := by
              have h2 := congrArg Prod.snd h1
              simpa using h2
            subst h1a
            rw [← h1b]
            exact authenticate_second_merge st sid s td scope env₂ now₂
              hst htd hS hns
  refine ⟨hfirst, ?_, ?_⟩
  · intro k
    rw [hfirst]
  · rw [hfirst]

/-- The token record of the session used to witness C7. -/
def c7Token : TokenRecord :=
  { token := "t7", client_id := none, client_secret := none,
    scopes := ["A"], refresh_token := some "r7", last_updated := some 0 }

/-- The concrete session used to witness C7: authorized for `"A"` only. -/
def c7Session : Session :=
  { created_at := 0, status := "completed",
    redirect_uri := REDIRECT_URI, scopes := ["A"],
    token_data := some c7Token, scopes_history := [],
    last_error := none, last_authorized := some 0 }

/-- A one-session store holding `c7Session` under id `"s7"`. -/
def c7State : AuthState := fun k =>
  if k = "s7" then some c7Session else none

/-- The store after the first `authenticate("s7", ["A","B"])` call on
`c7State`. -/
def c7Merged : AuthState :=
  setState c7State "s7"
    (mergedSession c7Session (normScopes (.list ["A", "B"])))

theorem c7_authenticate_idempotent_witness :
    (∀ s td, c7State "s7" = some s → s.token_data = some td →
      td.scopes ⊆ s.scopes)
    ∧ authenticate c7State "s7" (.list ["A", "B"]) ⟨false, .ok "x"⟩ 1
        = (c7Merged,
           .ok (none, some (mergedUrl "s7" c7Session
             (normScopes (.list ["A", "B"])))))
    ∧ (authenticate c7Merged "s7" (.list ["A", "B"]) ⟨false, .ok "y"⟩ 2
        = (c7Merged,
           .ok (none, some (mergedUrl "s7" c7Session
             (normScopes (.list ["A", "B"])))))
      ∧ (∀ k, (authenticate c7Merged "s7" (.list ["A", "B"])
          ⟨false, .ok "y"⟩ 2).1 k = c7Merged k)
      ∧ scopesOf (authenticate c7Merged "s7" (.list ["A", "B"])
          ⟨false, .ok "y"⟩ 2).1 "s7" = scopesOf c7Merged "s7") := by
  have hinv : ∀ s td, c7State "s7" = some s → s.token_data = some td →
      td.scopes ⊆ s.scopes := by
    intro s td hs htd
    have hs' : some c7Session = some s := hs
    cases hs'
    have htd' : some c7Token = some td := htd
    cases htd'
    decide
  have h1 : authenticate c7State "s7" (.list ["A", "B"]) ⟨false, .ok "x"⟩ 1
      = (c7Merged,
         .ok (none, some (mergedUrl "s7" c7Session
           (normScopes (.list ["A", "B"]))))) := by
    rfl
  exact ⟨hinv, h1,
    c7_authenticate_idempotent c7State "s7" (.list ["A", "B"])
      ⟨false, .ok "x"⟩ ⟨false, .ok "y"⟩ 1 2 c7Merged
      (mergedUrl "s7" c7Session (normScopes (.list ["A", "B"])))
      hinv h1⟩
